import Mathlib

/-!
Verification development for the chigui ledger core
(crates chigui-core and chigui-cli).

The Rust source keeps balances in a HashMap from Account (a String newtype)
to u64.  Here a balance mapping is embedded as an association list of
(account, Nat) pairs whose keys are intended to be distinct, exactly as the
HashMap guarantees; lookups and in-place updates act on the first matching
key.  u64 values are embedded as Nat; the only arithmetic the source
performs on them is unchecked addition and checked-by-guard subtraction, so
additions are reduced modulo 2 ^ 64, which is the overflow behavior of the
release profile (a debug build instead aborts with an overflow panic at the
same inputs).

Fallible Rust functions return anyhow Result values whose errors are
message strings, and two spots can panic (HashMap::get_disjoint_mut on
overlapping occupied keys, and debug-profile integer overflow).  Both kinds
of non-success are made explicit in the RustOutcome type below.
-/

set_option autoImplicit false

/-- Accounts are string identifiers compared by equality
(struct Account(String) in the source). -/
abbrev Account := String

/-- A balance mapping: the HashMap from Account to u64,
embedded as an association list with distinct keys. -/
abbrev Balances := List (Account × Nat)

/-- One more than the largest u64 value. -/
def U64MOD : Nat := 2 ^ 64

/-- HashMap::get, restricted to this embedding: the value stored at the
first matching key, if any. -/
def lookupBal : Balances → Account → Option Nat
  | [], _ => none
  | (k, v) :: rest, a => if k = a then some v else lookupBal rest a

/-- Writing through a HashMap entry: replace the value at the first
matching key, leaving the mapping unchanged when the key is absent.
The source only ever writes through references returned by
get_disjoint_mut or get_mut, so the key is always present at call sites. -/
def setBal : Balances → Account → Nat → Balances
  | [], _, _ => []
  | (k, v) :: rest, a, n =>
    if k = a then (k, n) :: rest else (k, v) :: setBal rest a n

/-- The sum of all balances stored in the mapping. -/
def balSum (m : Balances) : Nat := (m.map Prod.snd).sum

/-- The key set of the balance mapping, as the list of stored accounts. -/
def accounts (m : Balances) : List Account := m.map Prod.fst

/-- enum Tx from chigui-core's lib.rs.  The Rust field names are
from/to/value; from is a reserved word in Lean, hence fromAcct/toAcct. -/
inductive Tx where
  | transfer (fromAcct toAcct : Account) (value : Nat)
  | generate (toAcct : Account) (value : Nat)
  deriving Repr, DecidableEq

/-- The outcome of running a Rust function that returns an anyhow Result
and may also panic: Ok, Err with its message string, or a panic with the
panic message. -/
inductive RustOutcome (α : Type) where
  | ok (val : α)
  | err (msg : String)
  | panicked (msg : String)
  deriving Repr, DecidableEq

/-- HashMap::get_disjoint_mut([k1, k2]) as used by State::apply.  The std
implementation resolves each key to its bucket and panics with
"duplicate keys found" when two resolved buckets coincide, which happens
exactly when the two keys are equal and present; equal absent keys resolve
to no bucket and simply yield two misses.  On the non-panicking path the
call returns the two lookups. -/
def getDisjoint (m : Balances) (k1 k2 : Account) :
    RustOutcome (Option Nat × Option Nat) :=
  if k1 = k2 ∧ (lookupBal m k1).isSome then .panicked "duplicate keys found"
  else .ok (lookupBal m k1, lookupBal m k2)

/-- State::apply from state.rs, acting on the balance mapping.  The second
component is the mapping as the method leaves it (apply mutates self
through &mut); every early return happens before any write, and on the
success path a transfer first credits to and then debits from, while a
generate credits to.  Credits wrap modulo 2 ^ 64 (release-profile u64
addition); the debit is guarded by the sufficiency check and cannot
underflow. -/
def applyTx (m : Balances) (tx : Tx) : RustOutcome Unit × Balances :=
  match tx with
  | .transfer f t v =>
    match getDisjoint m f t with
    | .panicked msg => (.panicked msg, m)
    | .err msg => (.err msg, m)
    | .ok (some fb, some tb) =>
      if v > fb then (.err "Insufficient balance.", m)
      else (.ok (), setBal (setBal m t ((tb + v) % U64MOD)) f (fb - v))
    | .ok _ => (.err "Account not found.", m)
  | .generate t v =>
    match lookupBal m t with
    | none => (.err "[To] Account not found.", m)
    | some tb => (.ok (), setBal m t ((tb + v) % U64MOD))

/-- The replay loop inside State::from_parts: apply each transaction in
order, stopping at (and propagating) the first failure.  The second
component is the working mapping when the loop stops, which on failure
retains every previously applied transaction. -/
def replay (m : Balances) : List Tx → RustOutcome Unit × Balances
  | [] => (.ok (), m)
  | tx :: rest =>
    match applyTx m tx with
    | (.ok _, m2) => replay m2 rest
    | (.err e, m2) => (.err e, m2)
    | (.panicked e, m2) => (.panicked e, m2)

/-- struct Genesis from state.rs. -/
structure Genesis where
  genesis_time : String
  chain_id : String
  balances : List (Account × Nat)
  deriving Repr, DecidableEq

/-- struct State from state.rs: current balances, the replayed transaction
sequence, and the genesis record. -/
structure State where
  balances : List (Account × Nat)
  txs : List Tx
  genesis : Genesis
  deriving Repr, DecidableEq

/-- State::from_parts: clone the genesis balances into the working map and
replay every transaction in order, propagating the first failure. -/
def State.from_parts (g : Genesis) (txs : List Tx) : RustOutcome State :=
  match replay g.balances txs with
  | (.ok _, m) => .ok { balances := m, txs := txs, genesis := g }
  | (.err e, _) => .err e
  | (.panicked e, _) => .panicked e

/-- State::apply as a method on the whole State value. -/
def State.apply (s : State) (tx : Tx) : RustOutcome Unit × State :=
  match applyTx s.balances tx with
  | (r, m) => (r, { s with balances := m })

/-- State::get_balance: the cloned balance at the account, if present. -/
def State.get_balance (s : State) (a : Account) : Option Nat :=
  lookupBal s.balances a

/-- The four JSON whitespace characters recognized by serde_json. -/
def isJsonWs (c : Char) : Bool :=
  c = ' ' || c = '\t' || c = '\n' || c = '\r'

/-- Drop leading JSON whitespace. -/
def skipWs : List Char → List Char
  | [] => []
  | c :: rest => if isJsonWs c then skipWs rest else c :: rest

/-- Split a character list at every newline; the result always has one more
piece than there are newlines, so every piece except the last was
newline-terminated in the input. -/
def splitNl : List Char → List (List Char)
  | [] => [[]]
  | '\n' :: rest => [] :: splitNl rest
  | c :: rest =>
    match splitNl rest with
    | [] => [[c]]
    | l :: ls => (c :: l) :: ls

/-- Remove one trailing carriage return, as str::lines does to every
newline-terminated line. -/
def stripCR (l : List Char) : List Char :=
  if l.getLast? = some '\r' then l.dropLast else l

/-- str::lines on the split pieces: every newline-terminated piece loses a
trailing carriage return, and the final unterminated piece is kept as is
unless it is empty (an optional final line ending yields no extra line). -/
def rustLinesAux : List (List Char) → List (List Char)
  | [] => []
  | [p] => if p = [] then [] else [p]
  | piece :: rest => stripCR piece :: rustLinesAux rest

/-- str::lines from the Rust standard library, as used by State::parse_txs. -/
def rustLines (s : String) : List String :=
  (rustLinesAux (splitNl s.data)).map String.mk

/-- A JSON document, as serde_json reads one: numbers keep their sign, the
magnitude of their integer part, and whether they were written as plain
integers (no fraction, no exponent). -/
inductive Json where
  | null
  | bool (b : Bool)
  | num (neg : Bool) (mag : Nat) (isInt : Bool)
  | str (s : String)
  | arr (xs : List Json)
  | obj (fields : List (String × Json))

/-- The value of a hexadecimal digit. -/
def hexDigitVal (c : Char) : Option Nat :=
  if c.isDigit then some (c.toNat - 48)
  else if 'a' ≤ c ∧ c ≤ 'f' then some (c.toNat - 87)
  else if 'A' ≤ c ∧ c ≤ 'F' then some (c.toNat - 55)
  else none

/-- The single-character JSON string escapes. -/
def simpleEscape (c : Char) : Option Char :=
  if c = '\"' then some '\"'
  else if c = '\\' then some '\\'
  else if c = '/' then some '/'
  else if c = 'b' then some (Char.ofNat 8)
  else if c = 'f' then some (Char.ofNat 12)
  else if c = 'n' then some '\n'
  else if c = 'r' then some '\r'
  else if c = 't' then some '\t'
  else none

/-- Read the body of a JSON string after its opening quote, returning the
decoded characters and the input past the closing quote.  Escapes in the
surrogate range are not decoded here; no claim depends on them. -/
def parseStrChars : Nat → List Char → Except String (List Char × List Char)
  | 0, _ => .error "recursion limit exceeded"
  | _ + 1, [] => .error "EOF while parsing a string"
  | _ + 1, '\"' :: rest => .ok ([], rest)
  | f + 1, '\\' :: 'u' :: h1 :: h2 :: h3 :: h4 :: rest =>
    (match hexDigitVal h1, hexDigitVal h2, hexDigitVal h3, hexDigitVal h4 with
     | some x, some y, some z, some w =>
       let n := ((x * 16 + y) * 16 + z) * 16 + w
       if 0xD800 ≤ n ∧ n < 0xE000 then .error "unsupported surrogate escape"
       else
         match parseStrChars f rest with
         | .error e => .error e
         | .ok (s, r) => .ok (Char.ofNat n :: s, r)
     | _, _, _, _ => .error "invalid escape")
  | f + 1, '\\' :: e :: rest =>
    (match simpleEscape e with
     | some c =>
       match parseStrChars f rest with
       | .error e2 => .error e2
       | .ok (s, r) => .ok (c :: s, r)
     | none => .error "invalid escape")
  | f + 1, c :: rest =>
    if c.toNat < 32 then .error "control character in string"
    else
      match parseStrChars f rest with
      | .error e => .error e
      | .ok (s, r) => .ok (c :: s, r)

/-- Take the longest leading run of decimal digits. -/
def digitSpan : List Char → List Char × List Char
  | [] => ([], [])
  | c :: rest =>
    if c.isDigit then
      match digitSpan rest with
      | (ds, r) => (c :: ds, r)
    else ([], c :: rest)

/-- The number denoted by a list of decimal digits. -/
def digitsToNat (ds : List Char) : Nat :=
  ds.foldl (fun a c => a * 10 + (c.toNat - 48)) 0

/-- The digits of a JSON exponent after its e/E marker. -/
def parseExpTail (r : List Char) : Except String (Bool × List Char) :=
  let r1 :=
    match r with
    | '+' :: r2 => r2
    | '-' :: r2 => r2
    | _ => r
  match digitSpan r1 with
  | ([], _) => .error "invalid number"
  | (_, r2) => .ok (true, r2)

/-- An optional JSON exponent part; the flag records whether one was seen. -/
def parseExpPart : List Char → Except String (Bool × List Char)
  | 'e' :: r => parseExpTail r
  | 'E' :: r => parseExpTail r
  | cs => .ok (false, cs)

/-- An optional JSON fraction part; the flag records whether one was seen. -/
def parseFracPart : List Char → Except String (Bool × List Char)
  | '.' :: r =>
    (match digitSpan r with
     | ([], _) => .error "invalid number"
     | (_, r2) => .ok (true, r2))
  | cs => .ok (false, cs)

/-- A JSON number starting at the given input: optional minus, an integer
part without redundant leading zeros, then optional fraction and exponent. -/
def parseNumber (cs : List Char) : Except String (Json × List Char) :=
  let minus : Bool := cs.head? = some '-'
  let afterSign : List Char := if minus then cs.tail else cs
  match digitSpan afterSign with
  | ([], _) => .error "invalid number"
  | (ds, r1) =>
    if 1 < ds.length ∧ ds.head? = some '0' then .error "invalid number"
    else
      match parseFracPart r1 with
      | .error e => .error e
      | .ok (sawFrac, r2) =>
        match parseExpPart r2 with
        | .error e => .error e
        | .ok (sawExp, r3) =>
          .ok (.num minus (digitsToNat ds) (!sawFrac && !sawExp), r3)

mutual

/-- A JSON value after leading whitespace.  The fuel argument bounds the
nesting depth, mirroring serde_json's recursion limit; the top-level entry
point passes enough fuel for any document it can be asked to read. -/
def parseValue : Nat → List Char → Except String (Json × List Char)
  | 0, _ => .error "recursion limit exceeded"
  | f + 1, cs =>
    match skipWs cs with
    | [] => .error "EOF while parsing a value"
    | '{' :: rest => parseObjRest f rest
    | '[' :: rest => parseArrRest f rest
    | '\"' :: rest =>
      (match parseStrChars (rest.length + 1) rest with
       | .error e => .error e
       | .ok (s, r) => .ok (.str (String.mk s), r))
    | 't' :: 'r' :: 'u' :: 'e' :: rest => .ok (.bool true, rest)
    | 'f' :: 'a' :: 'l' :: 's' :: 'e' :: rest => .ok (.bool false, rest)
    | 'n' :: 'u' :: 'l' :: 'l' :: rest => .ok (.null, rest)
    | c :: rest =>
      if c = '-' ∨ c.isDigit then parseNumber (c :: rest)
      else .error "expected value"

/-- The remainder of a JSON object after its opening brace. -/
def parseObjRest : Nat → List Char → Except String (Json × List Char)
  | 0, _ => .error "recursion limit exceeded"
  | f + 1, cs =>
    match skipWs cs with
    | '}' :: r => .ok (.obj [], r)
    | _ =>
      match parseMembers f cs with
      | .error e => .error e
      | .ok (fs, r) => .ok (.obj fs, r)

/-- One or more key-value members of a JSON object, ending at its
closing brace. -/
def parseMembers : Nat → List Char → Except String (List (String × Json) × List Char)
  | 0, _ => .error "recursion limit exceeded"
  | f + 1, cs =>
    match skipWs cs with
    | '\"' :: r =>
      (match parseStrChars (r.length + 1) r with
       | .error e => .error e
       | .ok (ks, r1) =>
         match skipWs r1 with
         | ':' :: afterColon =>
           (match parseValue f afterColon with
            | .error e => .error e
            | .ok (fieldVal, afterVal) =>
              match skipWs afterVal with
              | ',' :: afterComma =>
                (match parseMembers f afterComma with
                 | .error e => .error e
                 | .ok (fs, tail) => .ok ((String.mk ks, fieldVal) :: fs, tail))
              | '}' :: tail => .ok ([(String.mk ks, fieldVal)], tail)
              | _ => .error "expected comma or end of object")
         | _ => .error "expected colon")
    | _ => .error "key must be a string"

/-- The remainder of a JSON array after its opening bracket. -/
def parseArrRest : Nat → List Char → Except String (Json × List Char)
  | 0, _ => .error "recursion limit exceeded"
  | f + 1, cs =>
    match skipWs cs with
    | ']' :: r => .ok (.arr [], r)
    | _ =>
      match parseItems f cs with
      | .error e => .error e
      | .ok (xs, r) => .ok (.arr xs, r)

/-- One or more items of a JSON array, ending at its closing bracket. -/
def parseItems : Nat → List Char → Except String (List Json × List Char)
  | 0, _ => .error "recursion limit exceeded"
  | f + 1, cs =>
    match parseValue f cs with
    | .error e => .error e
    | .ok (v, r) =>
      match skipWs r with
      | ',' :: r2 =>
        (match parseItems f r2 with
         | .error e => .error e
         | .ok (xs, r3) => .ok (v :: xs, r3))
      | ']' :: r2 => .ok ([v], r2)
      | _ => .error "expected comma or end of array"

end

/-- serde_json::from_str's framing: a single JSON document with nothing but
whitespace after it.  The fuel handed to the value parser is generous
enough for any nesting the input can contain. -/
def parseJson (s : String) : Except String Json :=
  match parseValue (4 * s.data.length + 4) s.data with
  | .error e => .error e
  | .ok (j, rest) =>
    match skipWs rest with
    | [] => .ok j
    | _ => .error "trailing characters"

/-- The value stored at the first occurrence of a key in a parsed object. -/
def jlookup : List (String × Json) → String → Option Json
  | [], _ => none
  | (k, v) :: rest, key => if k = key then some v else jlookup rest key

/-- Deserializing a u64 field: a plain non-negative integer that fits in
64 bits; anything else (negative, fractional, exponent form, out of range,
or not a number) is rejected. -/
def jsonToU64 : Json → Except String Nat
  | .num false n true =>
    if n < U64MOD then .ok n else .error "number out of u64 range"
  | .num _ _ _ => .error "invalid value for u64"
  | _ => .error "invalid type: expected u64"

/-- Deserializing an Account field: a JSON string. -/
def jsonToAccount : Json → Except String Account
  | .str s => .ok s
  | _ => .error "invalid type: expected a string"

/-- serde's internally tagged deserialization of Tx (tag field "type",
variant names lowercased): the document must be an object; the tag selects
transfer or generate; the variant's fields are read from the remaining
members, unknown members being ignored (serde's default). -/
def txFromJson : Json → Except String Tx
  | .obj fields =>
    (match jlookup fields "type" with
     | none => .error "missing field type"
     | some (.str tag) =>
       if tag = "transfer" then
         match jlookup fields "from", jlookup fields "to", jlookup fields "value" with
         | some fj, some tj, some vj =>
           (match jsonToAccount fj with
            | .error e => .error e
            | .ok f =>
              match jsonToAccount tj with
              | .error e => .error e
              | .ok t =>
                match jsonToU64 vj with
                | .error e => .error e
                | .ok v => .ok (.transfer f t v))
         | _, _, _ => .error "missing field"
       else if tag = "generate" then
         match jlookup fields "to", jlookup fields "value" with
         | some tj, some vj =>
           (match jsonToAccount tj with
            | .error e => .error e
            | .ok t =>
              match jsonToU64 vj with
              | .error e => .error e
              | .ok v => .ok (.generate t v))
         | _, _ => .error "missing field"
       else .error "unknown variant"
     | some _ => .error "invalid type for tag")
  | _ => .error "invalid type: expected an object"

/-- serde_json::from_str::<Tx> on one line of the tx.db file. -/
def parseTxStr (s : String) : Except String Tx :=
  match parseJson s with
  | .error e => .error e
  | .ok j => txFromJson j

/-- The collect step of State::parse_txs: each line is deserialized
independently and the first failure is propagated, wrapped in the anyhow
context message attached to every line's parse. -/
def parseTxsLines : List String → Except String (List Tx)
  | [] => .ok []
  | l :: rest =>
    match parseTxStr l with
    | .error _ => .error "Failed to parse transaction."
    | .ok tx =>
      match parseTxsLines rest with
      | .error e => .error e
      | .ok txs => .ok (tx :: txs)

/-- State::parse_txs: split the tx.db text into lines with str::lines and
deserialize every line as a Tx, in order. -/
def parse_txs (s : String) : Except String (List Tx) :=
  parseTxsLines (rustLines s)

/-- Reading the sum of a mapping with one more entry. -/
theorem balSum_cons (k : Account) (v : Nat) (l : Balances) :
    balSum ((k, v) :: l) = v + balSum l := by
  simp [balSum]

/-- After writing a present key, reading it back gives the written value. -/
theorem lookupBal_setBal_self (m : Balances) (a : Account) (w n : Nat)
    (h : lookupBal m a = some w) : lookupBal (setBal m a n) a = some n := by
  induction m with
  | nil => simp [lookupBal] at h
  | cons p rest ih =>
    obtain ⟨k, v⟩ := p
    by_cases hk : k = a
    · simp [setBal, lookupBal, hk]
    · simp [lookupBal, hk] at h
      simp [setBal, lookupBal, hk]
      exact ih h

/-- Writing one key leaves every other key's value unchanged. -/
theorem lookupBal_setBal_ne (m : Balances) (a b : Account) (n : Nat)
    (h : b ≠ a) : lookupBal (setBal m a n) b = lookupBal m b := by
  induction m with
  | nil => simp [setBal]
  | cons p rest ih =>
    obtain ⟨k, v⟩ := p
    by_cases hk : k = a
    · subst hk
      simp [setBal, lookupBal, Ne.symm h]
    · simp [setBal, lookupBal, hk]
      by_cases hb : k = b
      · simp [hb]
      · simp [hb, ih]

/-- Writing through an entry never changes the key set. -/
theorem accounts_setBal (m : Balances) (a : Account) (n : Nat) :
    accounts (setBal m a n) = accounts m := by
  induction m with
  | nil => rfl
  | cons p rest ih =>
    obtain ⟨k, v⟩ := p
    by_cases hk : k = a
    · simp [setBal, accounts, hk]
    · simp [setBal, accounts, hk]
      simpa [accounts] using ih

/-- Writing a present key moves the sum by the difference between the new
and the old value. -/
theorem balSum_setBal (m : Balances) (a : Account) (w n : Nat)
    (h : lookupBal m a = some w) : balSum (setBal m a n) + w = balSum m + n := by
  induction m with
  | nil => simp [lookupBal] at h
  | cons p rest ih =>
    obtain ⟨k, v⟩ := p
    by_cases hk : k = a
    · simp [lookupBal, hk] at h
      subst h
      simp [setBal, hk, balSum_cons]
      omega
    · simp [lookupBal, hk] at h
      have := ih h
      simp [setBal, hk, balSum_cons]
      omega

/-- On the non-panicking, distinct-key path, a transfer with both accounts
present and a sufficient source balance reduces to its two writes. -/
theorem applyTx_transfer_ok (m : Balances) (f t : Account) (v fb tb : Nat)
    (hft : f ≠ t) (hf : lookupBal m f = some fb) (ht : lookupBal m t = some tb)
    (hv : v ≤ fb) :
    applyTx m (.transfer f t v)
      = (.ok (), setBal (setBal m t ((tb + v) % U64MOD)) f (fb - v)) := by
  have hgd : getDisjoint m f t = .ok (some fb, some tb) := by
    simp [getDisjoint, hft, hf, ht]
  simp [applyTx, hgd, Nat.not_lt.mpr hv]

/-- A failing transfer leaves the mapping untouched and carries one of the
two fixed transfer error messages. -/
theorem applyTx_transfer_err_inv (m : Balances) (f t : Account) (v : Nat)
    (e : String) (h : (applyTx m (.transfer f t v)).1 = .err e) :
    (applyTx m (.transfer f t v)).2 = m ∧
      (e = "Account not found." ∨ e = "Insufficient balance.") := by
  simp only [applyTx] at h ⊢
  cases hgd : getDisjoint m f t with
  | panicked msg =>
    rw [hgd] at h
    simp at h
  | err msg =>
    exfalso
    simp only [getDisjoint] at hgd
    split at hgd
    · cases hgd
    · cases hgd
  | ok p =>
    obtain ⟨fo, to2⟩ := p
    rw [hgd] at h
    cases fo with
    | none => cases to2 <;> simp_all
    | some fb =>
      cases to2 with
      | none => simp_all
      | some tb =>
        by_cases hv : fb < v
        · simp [hv] at h ⊢
          exact Or.inr h.symm
        · simp [hv] at h

/-- A failing generate leaves the mapping untouched and carries the fixed
generate error message. -/
theorem applyTx_generate_err_inv (m : Balances) (t : Account) (v : Nat)
    (e : String) (h : (applyTx m (.generate t v)).1 = .err e) :
    (applyTx m (.generate t v)).2 = m ∧ e = "[To] Account not found." := by
  simp only [applyTx] at h ⊢
  cases hl : lookupBal m t with
  | none => simp_all
  | some tb =>
    rw [hl] at h
    simp at h

/-- Any error result of apply leaves the mapping untouched. -/
theorem applyTx_snd_of_err (m : Balances) (tx : Tx) (e : String)
    (h : (applyTx m tx).1 = .err e) : (applyTx m tx).2 = m := by
  cases tx with
  | transfer f t v => exact (applyTx_transfer_err_inv m f t v e h).1
  | generate t v => exact (applyTx_generate_err_inv m t v e h).1

/-- Any error message produced by apply is one of its three fixed strings. -/
theorem applyTx_err_msg (m : Balances) (tx : Tx) (e : String)
    (h : (applyTx m tx).1 = .err e) :
    e = "Account not found." ∨ e = "Insufficient balance." ∨
      e = "[To] Account not found." := by
  cases tx with
  | transfer f t v =>
    rcases (applyTx_transfer_err_inv m f t v e h).2 with h1 | h1
    · exact Or.inl h1
    · exact Or.inr (Or.inl h1)
  | generate t v => exact Or.inr (Or.inr (applyTx_generate_err_inv m t v e h).2)

/-- apply never changes the key set of the mapping, on any path. -/
theorem accounts_applyTx (m : Balances) (tx : Tx) :
    accounts (applyTx m tx).2 = accounts m := by
  cases tx with
  | transfer f t v =>
    simp only [applyTx]
    cases hgd : getDisjoint m f t with
    | panicked msg => rfl
    | err msg => rfl
    | ok p =>
      obtain ⟨fo, to2⟩ := p
      cases fo with
      | none => cases to2 <;> rfl
      | some fb =>
        cases to2 with
        | none => rfl
        | some tb =>
          by_cases hv : v > fb
          · simp [hv]
          · simp [hv, accounts_setBal]
  | generate t v =>
    simp only [applyTx]
    cases hl : lookupBal m t with
    | none => rfl
    | some tb => simp [accounts_setBal]

/-- Replaying never changes the key set of the mapping, on any path. -/
theorem accounts_replay (txs : List Tx) (m : Balances) :
    accounts (replay m txs).2 = accounts m := by
  induction txs generalizing m with
  | nil => rfl
  | cons tx rest ih =>
    simp only [replay]
    cases ha : applyTx m tx with
    | mk r m2 =>
      have hacc : accounts m2 = accounts m := by
        have h2 := accounts_applyTx m tx
        rw [ha] at h2
        exact h2
      cases r with
      | ok u => simp only []; rw [ih m2, hacc]
      | err e => simpa using hacc
      | panicked e => simpa using hacc

/-- A replay that succeeds on a prefix continues from the mapping the
prefix produced. -/
theorem replay_append_ok (pre rest : List Tx) (m m1 : Balances)
    (h : replay m pre = (.ok (), m1)) :
    replay m (pre ++ rest) = replay m1 rest := by
  induction pre generalizing m with
  | nil =>
    simp [replay] at h
    simp [h]
  | cons tx pre2 ih =>
    simp only [replay, List.cons_append]
    simp only [replay] at h
    cases ha : applyTx m tx with
    | mk r m2 =>
      rw [ha] at h
      cases r with
      | ok u => exact ih m2 h
      | err e => simp at h
      | panicked e => simp at h

/-- Every error a replay can surface is one of apply's three fixed
messages. -/
theorem replay_err_msg (txs : List Tx) (m : Balances) (e : String)
    (h : (replay m txs).1 = .err e) :
    e = "Account not found." ∨ e = "Insufficient balance." ∨
      e = "[To] Account not found." := by
  induction txs generalizing m with
  | nil => simp [replay] at h
  | cons tx rest ih =>
    simp only [replay] at h
    cases ha : applyTx m tx with
    | mk r m2 =>
      rw [ha] at h
      cases r with
      | ok u => exact ih m2 h
      | err e2 =>
        simp at h
        subst h
        have h2 : (applyTx m tx).1 = .err e2 := by rw [ha]
        exact applyTx_err_msg m tx e2 h2
      | panicked e2 => simp at h

/-- from_parts surfaces exactly the error its replay stopped at. -/
theorem from_parts_err_inv (g : Genesis) (txs : List Tx) (e : String)
    (h : State.from_parts g txs = .err e) :
    (replay g.balances txs).1 = .err e := by
  simp only [State.from_parts] at h
  cases hr : replay g.balances txs with
  | mk r m =>
    rw [hr] at h
    cases r with
    | ok u => simp at h
    | err e2 =>
      simp at h ⊢
      exact h
    | panicked e2 => simp at h

/-- Skipping whitespace over an all-whitespace list leaves nothing. -/
theorem skipWs_eq_nil (l : List Char) (h : l.all isJsonWs = true) :
    skipWs l = [] := by
  induction l with
  | nil => rfl
  | cons c rest ih =>
    simp only [List.all_cons, Bool.and_eq_true] at h
    simp [skipWs, h.1, ih h.2]

/-- With anything left in the tank, the value parser rejects an input that
is nothing but whitespace. -/
theorem parseValue_ws_nil (f : Nat) (cs : List Char) (h : skipWs cs = []) :
    parseValue (f + 1) cs = .error "EOF while parsing a value" := by
  rw [parseValue, h]

/-- serde_json rejects an all-whitespace document. -/
theorem parseJson_blank (s : String) (h : s.data.all isJsonWs = true) :
    parseJson s = .error "EOF while parsing a value" := by
  have h1 : skipWs s.data = [] := skipWs_eq_nil _ h
  obtain ⟨k, hk⟩ : ∃ k, 4 * s.data.length + 4 = k + 1 :=
    ⟨4 * s.data.length + 3, by omega⟩
  rw [parseJson, hk, parseValue_ws_nil k s.data h1]

/-- A blank line never deserializes as a transaction. -/
theorem parseTxStr_blank (s : String) (h : s.data.all isJsonWs = true) :
    parseTxStr s = .error "EOF while parsing a value" := by
  rw [parseTxStr, parseJson_blank s h]

/-- The only error message the line-collect step can return is the anyhow
context string attached to every line. -/
theorem parseTxsLines_err_msg (ls : List String) (e : String)
    (h : parseTxsLines ls = .error e) :
    e = "Failed to parse transaction." := by
  induction ls with
  | nil => simp [parseTxsLines] at h
  | cons l rest ih =>
    simp only [parseTxsLines] at h
    cases hp : parseTxStr l with
    | error e2 =>
      rw [hp] at h
      simp at h
      exact h.symm
    | ok tx =>
      rw [hp] at h
      cases hr : parseTxsLines rest with
      | error e2 =>
        rw [hr] at h
        simp at h
        have he : parseTxsLines rest = Except.error e := by
          rw [hr, h]
        exact ih he
      | ok txs =>
        rw [hr] at h
        simp at h

/-- If any line fails to deserialize, the whole collect step fails with
the fixed context message. -/
theorem parseTxsLines_err_of_mem (ls : List String) (l : String)
    (hmem : l ∈ ls) (e0 : String) (hfail : parseTxStr l = .error e0) :
    parseTxsLines ls = .error "Failed to parse transaction." := by
  induction ls with
  | nil => cases hmem
  | cons a rest ih =>
    simp only [parseTxsLines]
    cases hp : parseTxStr a with
    | error e2 => rfl
    | ok tx =>
      have hmem2 : l ∈ rest := by
        rcases List.mem_cons.mp hmem with h1 | h1
        · subst h1
          rw [hfail] at hp
          simp at hp
        · exact h1
      rw [ih hmem2]

/-- The embedding reproduces the crate's unit test apply_transfer_tx:
transferring 10 coins between two accounts holding 1000 each. -/
theorem apply_transfer_matches_crate_test :
    applyTx [("alice", 1000), ("bob", 1000)] (Tx.transfer "alice" "bob" 10)
      = (.ok (), [("alice", 990), ("bob", 1010)]) := by decide

/-- The embedding reproduces the crate's unit test generate_coins:
generating 10 coins onto bob. -/
theorem apply_generate_matches_crate_test :
    applyTx [("alice", 1000), ("bob", 1000)] (Tx.generate "bob" 10)
      = (.ok (), [("alice", 1000), ("bob", 1010)]) := by decide

/-- The line deserializer accepts a well-formed generate record. -/
theorem parseTxStr_generate_sample :
    parseTxStr "\x7b\"type\":\"generate\",\"to\":\"a\",\"value\":1\x7d"
      = .ok (Tx.generate "a" 1) := by rfl

/-- The line deserializer accepts a well-formed transfer record. -/
theorem parseTxStr_transfer_sample :
    parseTxStr "\x7b\"type\":\"transfer\",\"from\":\"alice\",\"to\":\"bob\",\"value\":10\x7d"
      = .ok (Tx.transfer "alice" "bob" 10) := by rfl

/-- A single well-formed line parses into a one-transaction sequence. -/
theorem parse_txs_single_line_sample :
    parse_txs "\x7b\"type\":\"generate\",\"to\":\"a\",\"value\":1\x7d"
      = .ok [Tx.generate "a" 1] := by rfl

/-- The embedded str::lines strips carriage returns only before a line
feed, exactly like Rust. -/
theorem rustLines_crlf_sample : rustLines "a\r\nb\r" = ["a", "b\r"] := by rfl

/-- Claim C1 (amended): for every ledger state and Transfer with distinct
from and to, both present and value at most the source balance, and
additionally no u64 overflow on the credited balance (pre-balance of to
plus value below 2 ^ 64), apply succeeds, from loses value, to gains
value, every other account is unchanged, and the sum of all balances is
unchanged.  Without the no-overflow side condition the final two
equalities fail on the code, which wraps the credit modulo 2 ^ 64. -/
theorem transfer_ok_spec (m : Balances) (f t : Account) (v fb tb : Nat)
    (hft : f ≠ t) (hf : lookupBal m f = some fb) (ht : lookupBal m t = some tb)
    (hv : v ≤ fb) (hov : tb + v < U64MOD) :
    (applyTx m (.transfer f t v)).1 = .ok () ∧
    lookupBal (applyTx m (.transfer f t v)).2 f = some (fb - v) ∧
    lookupBal (applyTx m (.transfer f t v)).2 t = some (tb + v) ∧
    (∀ x, x ≠ f → x ≠ t →
      lookupBal (applyTx m (.transfer f t v)).2 x = lookupBal m x) ∧
    balSum (applyTx m (.transfer f t v)).2 = balSum m := by
  have hmod : (tb + v) % U64MOD = tb + v := Nat.mod_eq_of_lt hov
  have happ : applyTx m (.transfer f t v)
      = (.ok (), setBal (setBal m t (tb + v)) f (fb - v)) := by
    rw [applyTx_transfer_ok m f t v fb tb hft hf ht hv, hmod]
  have h1 : (applyTx m (.transfer f t v)).1 = .ok () := by rw [happ]
  have h2 : (applyTx m (.transfer f t v)).2
      = setBal (setBal m t (tb + v)) f (fb - v) := by rw [happ]
  have hin : lookupBal (setBal m t (tb + v)) f = some fb := by
    rw [lookupBal_setBal_ne m t f (tb + v) hft]
    exact hf
  refine ⟨h1, ?_, ?_, ?_, ?_⟩
  · rw [h2]
    exact lookupBal_setBal_self _ f fb _ hin
  · rw [h2, lookupBal_setBal_ne (setBal m t (tb + v)) f t (fb - v) (Ne.symm hft)]
    exact lookupBal_setBal_self m t tb _ ht
  · intro x hxf hxt
    rw [h2, lookupBal_setBal_ne _ f x _ hxf, lookupBal_setBal_ne m t x _ hxt]
  · rw [h2]
    have hs1 := balSum_setBal m t tb (tb + v) ht
    have hs2 := balSum_setBal (setBal m t (tb + v)) f fb (fb - v) hin
    omega

/-- Claim C1 (witness): the amended transfer invariant at a concrete
two-account ledger. -/
theorem transfer_ok_spec_witness :
    (("alice" : Account) ≠ "bob" ∧
      lookupBal [("alice", 1000), ("bob", 1000)] "alice" = some 1000 ∧
      lookupBal [("alice", 1000), ("bob", 1000)] "bob" = some 1000 ∧
      10 ≤ 1000 ∧ 1000 + 10 < U64MOD) ∧
    ((applyTx [("alice", 1000), ("bob", 1000)] (Tx.transfer "alice" "bob" 10)).1
        = .ok () ∧
      lookupBal (applyTx [("alice", 1000), ("bob", 1000)]
        (Tx.transfer "alice" "bob" 10)).2 "alice" = some (1000 - 10) ∧
      lookupBal (applyTx [("alice", 1000), ("bob", 1000)]
        (Tx.transfer "alice" "bob" 10)).2 "bob" = some (1000 + 10) ∧
      (∀ x, x ≠ "alice" → x ≠ "bob" →
        lookupBal (applyTx [("alice", 1000), ("bob", 1000)]
          (Tx.transfer "alice" "bob" 10)).2 x
          = lookupBal [("alice", 1000), ("bob", 1000)] x) ∧
      balSum (applyTx [("alice", 1000), ("bob", 1000)]
        (Tx.transfer "alice" "bob" 10)).2
        = balSum [("alice", 1000), ("bob", 1000)]) :=
  ⟨⟨by decide, by decide, by decide, by decide, by decide⟩,
    transfer_ok_spec [("alice", 1000), ("bob", 1000)] "alice" "bob" 10 1000 1000
      (by decide) (by decide) (by decide) (by decide) (by decide)⟩

/-- Claim C1 (counterexample): with the destination at u64::MAX, a 1-coin
transfer meets every hypothesis of the claim as stated and succeeds, yet
the destination ends at 0 instead of its pre-balance plus 1 and the sum of
balances changes: the claim as stated is false on the code. -/
theorem transfer_ok_spec_cex :
    ("a" : Account) ≠ "b" ∧
    lookupBal [("a", 1), ("b", U64MOD - 1)] "a" = some 1 ∧
    lookupBal [("a", 1), ("b", U64MOD - 1)] "b" = some (U64MOD - 1) ∧
    1 ≤ 1 ∧
    (applyTx [("a", 1), ("b", U64MOD - 1)] (Tx.transfer "a" "b" 1)).1 = .ok () ∧
    lookupBal (applyTx [("a", 1), ("b", U64MOD - 1)]
      (Tx.transfer "a" "b" 1)).2 "b" = some 0 ∧
    lookupBal (applyTx [("a", 1), ("b", U64MOD - 1)]
      (Tx.transfer "a" "b" 1)).2 "b" ≠ some ((U64MOD - 1) + 1) ∧
    balSum (applyTx [("a", 1), ("b", U64MOD - 1)] (Tx.transfer "a" "b" 1)).2
      ≠ balSum [("a", 1), ("b", U64MOD - 1)] := by decide

/-- Claim C2: evaluating both credit sites of State::apply at inputs whose
credited balance would exceed u64::MAX.  The code performs an unchecked
u64 addition: under the release profile the balance wraps modulo 2 ^ 64
and apply returns Ok — no ArithmeticOverflow failure exists anywhere in
the code (a debug build panics at the same inputs instead of returning an
error). -/
theorem overflow_wraps_silently :
    applyTx [("a", U64MOD - 1)] (Tx.generate "a" 1) = (.ok (), [("a", 0)]) ∧
    applyTx [("a", 1), ("b", U64MOD - 1)] (Tx.transfer "a" "b" 1)
      = (.ok (), [("a", 0), ("b", 0)]) := by decide

/-- Claim C3 (amended): a self-transfer whose account exists panics inside
HashMap::get_disjoint_mut ("duplicate keys found") before the existence
and sufficiency checks are reached, leaving the mapping untouched; it
neither succeeds nor returns an error. -/
theorem self_transfer_panics (m : Balances) (a : Account) (v : Nat)
    (h : (lookupBal m a).isSome = true) :
    applyTx m (.transfer a a v) = (.panicked "duplicate keys found", m) := by
  simp [applyTx, getDisjoint, h]

/-- Claim C3 (witness): the self-transfer panic at a concrete ledger. -/
theorem self_transfer_panics_witness :
    (lookupBal [("a", 10)] "a").isSome = true ∧
    applyTx [("a", 10)] (Tx.transfer "a" "a" 5)
      = (.panicked "duplicate keys found", [("a", 10)]) :=
  ⟨by decide, self_transfer_panics [("a", 10)] "a" 5 (by decide)⟩

/-- Claim C3 (counterexample): a self-transfer of 5 on an account holding
10 — the account exists and the value is within balance, so the claim says
apply succeeds — panics instead of succeeding. -/
theorem self_transfer_cex :
    lookupBal [("a", 10)] "a" = some 10 ∧
    (5 : Nat) ≤ 10 ∧
    applyTx [("a", 10)] (Tx.transfer "a" "a" 5)
      = (.panicked "duplicate keys found", [("a", 10)]) ∧
    (applyTx [("a", 10)] (Tx.transfer "a" "a" 5)).1 ≠ .ok () := by decide

/-- Claim C4: whenever apply returns an error (Account not found, in
either variant, or Insufficient balance), the balance mapping is exactly
the one the call started from — no partial debit or credit occurs. -/
theorem apply_err_leaves_map (m : Balances) (tx : Tx) (e : String)
    (h : (applyTx m tx).1 = .err e) : (applyTx m tx).2 = m :=
  applyTx_snd_of_err m tx e h

/-- Claim C4 (witness): a transfer out of a ledger that lacks the
destination account fails and leaves the mapping unchanged. -/
theorem apply_err_leaves_map_witness :
    (applyTx [("a", 5)] (Tx.transfer "a" "b" 1)).1 = .err "Account not found." ∧
    (applyTx [("a", 5)] (Tx.transfer "a" "b" 1)).2 = [("a", 5)] :=
  ⟨by decide,
    apply_err_leaves_map [("a", 5)] (Tx.transfer "a" "b" 1)
      "Account not found." (by decide)⟩

/-- Claim C5 (amended): a Generate fails with the (To-side) account-not-found
error exactly when the target is absent; when present it succeeds, creates
or removes no account, and changes no other balance; and additionally
provided the credited balance does not overflow u64 (pre-balance of to
plus value below 2 ^ 64), the target ends at its pre-balance plus value
and the sum of balances grows by exactly value.  Without the no-overflow
side condition the code wraps the credit modulo 2 ^ 64. -/
theorem generate_spec (m : Balances) (t : Account) (v : Nat) :
    ((applyTx m (.generate t v)).1 = .err "[To] Account not found."
        ↔ lookupBal m t = none) ∧
    (∀ tb, lookupBal m t = some tb →
      (applyTx m (.generate t v)).1 = .ok () ∧
      accounts (applyTx m (.generate t v)).2 = accounts m ∧
      (∀ x, x ≠ t →
        lookupBal (applyTx m (.generate t v)).2 x = lookupBal m x) ∧
      (tb + v < U64MOD →
        lookupBal (applyTx m (.generate t v)).2 t = some (tb + v) ∧
        balSum (applyTx m (.generate t v)).2 = balSum m + v)) := by
  constructor
  · constructor
    · intro h
      cases hl : lookupBal m t with
      | none => rfl
      | some tb =>
        have happ : applyTx m (.generate t v)
            = (.ok (), setBal m t ((tb + v) % U64MOD)) := by
          simp [applyTx, hl]
        rw [happ] at h
        simp at h
    · intro hl
      simp [applyTx, hl]
  · intro tb hl
    have happ : applyTx m (.generate t v)
        = (.ok (), setBal m t ((tb + v) % U64MOD)) := by
      simp [applyTx, hl]
    have h1 : (applyTx m (.generate t v)).1 = .ok () := by rw [happ]
    have h2 : (applyTx m (.generate t v)).2 = setBal m t ((tb + v) % U64MOD) := by
      rw [happ]
    refine ⟨h1, ?_, ?_, ?_⟩
    · rw [h2]
      exact accounts_setBal m t _
    · intro x hx
      rw [h2]
      exact lookupBal_setBal_ne m t x _ hx
    · intro hov
      have hmod : (tb + v) % U64MOD = tb + v := Nat.mod_eq_of_lt hov
      rw [h2, hmod]
      refine ⟨lookupBal_setBal_self m t tb _ hl, ?_⟩
      have hs := balSum_setBal m t tb (tb + v) hl
      omega

/-- Claim C5 (witness): the amended generate invariant at a concrete
one-account ledger. -/
theorem generate_spec_witness :
    lookupBal [("bob", 5)] "bob" = some 5 ∧
    ((applyTx [("bob", 5)] (Tx.generate "bob" 7)).1 = .ok () ∧
      accounts (applyTx [("bob", 5)] (Tx.generate "bob" 7)).2
        = accounts [("bob", 5)] ∧
      (∀ x, x ≠ "bob" →
        lookupBal (applyTx [("bob", 5)] (Tx.generate "bob" 7)).2 x
          = lookupBal [("bob", 5)] x) ∧
      (5 + 7 < U64MOD →
        lookupBal (applyTx [("bob", 5)] (Tx.generate "bob" 7)).2 "bob"
          = some (5 + 7) ∧
        balSum (applyTx [("bob", 5)] (Tx.generate "bob" 7)).2
          = balSum [("bob", 5)] + 7)) :=
  ⟨by decide, (generate_spec [("bob", 5)] "bob" 7).2 5 (by decide)⟩

/-- Claim C5 (counterexample): generating 1 coin onto an account holding
u64::MAX succeeds but leaves it at 0 — not at its pre-balance plus 1 — and
the sum of balances does not grow by 1: the claim as stated is false on
the code. -/
theorem generate_spec_cex :
    lookupBal [("a", U64MOD - 1)] "a" = some (U64MOD - 1) ∧
    (applyTx [("a", U64MOD - 1)] (Tx.generate "a" 1)).1 = .ok () ∧
    lookupBal (applyTx [("a", U64MOD - 1)] (Tx.generate "a" 1)).2 "a" = some 0 ∧
    lookupBal (applyTx [("a", U64MOD - 1)] (Tx.generate "a" 1)).2 "a"
      ≠ some ((U64MOD - 1) + 1) ∧
    balSum (applyTx [("a", U64MOD - 1)] (Tx.generate "a" 1)).2
      ≠ balSum [("a", U64MOD - 1)] + 1 := by decide

/-- Claim C6: from_parts on an empty sequence returns exactly the genesis
balances; a replay that succeeded on a prefix continues in order from the
prefix's mapping; the first failing transaction stops the replay with its
error and the prefix's effects kept (no rollback, no later transaction
attempted, whatever follows); and from_parts propagates that first
error. -/
theorem from_parts_spec :
    (∀ g : Genesis, State.from_parts g []
        = .ok { balances := g.balances, txs := [], genesis := g }) ∧
    (∀ (m : Balances) (pre rest : List Tx) (m1 : Balances),
      replay m pre = (.ok (), m1) → replay m (pre ++ rest) = replay m1 rest) ∧
    (∀ (m : Balances) (pre : List Tx) (tx : Tx) (post : List Tx) (e : String)
      (m1 m2 : Balances),
      replay m pre = (.ok (), m1) → applyTx m1 tx = (.err e, m2) →
      replay m (pre ++ tx :: post) = (.err e, m2)) ∧
    (∀ (g : Genesis) (txs : List Tx) (e : String) (m2 : Balances),
      replay g.balances txs = (.err e, m2) → State.from_parts g txs = .err e) := by
  refine ⟨?_, ?_, ?_, ?_⟩
  · intro g
    rfl
  · intro m pre rest m1 h
    exact replay_append_ok pre rest m m1 h
  · intro m pre tx post e m1 m2 h1 h2
    rw [replay_append_ok pre (tx :: post) m m1 h1]
    simp only [replay]
    rw [h2]
  · intro g txs e m2 h
    simp only [State.from_parts]
    rw [h]

/-- Claim C6 (witness): a three-transaction sequence whose middle
transaction fails stops the replay there, keeps the applied prefix, and
ignores the rest. -/
theorem from_parts_spec_witness :
    replay [("a", 5)] [Tx.generate "a" 1] = (.ok (), [("a", 6)]) ∧
    applyTx [("a", 6)] (Tx.generate "b" 1)
      = (.err "[To] Account not found.", [("a", 6)]) ∧
    replay [("a", 5)]
        ([Tx.generate "a" 1] ++ Tx.generate "b" 1 :: [Tx.generate "a" 9])
      = (.err "[To] Account not found.", [("a", 6)]) :=
  ⟨by decide, by decide,
    from_parts_spec.2.2.1 [("a", 5)] [Tx.generate "a" 1] (Tx.generate "b" 1)
      [Tx.generate "a" 9] "[To] Account not found." [("a", 6)] [("a", 6)]
      (by decide) (by decide)⟩

/-- Claim C7 (amended): for a transfer between two distinct accounts that
both exist, apply fails with Insufficient balance exactly when value
exceeds the source balance, and a transfer of the exact balance succeeds
leaving the source at 0.  The distinctness hypothesis is forced by the
code: with from equal to to (and present) the call panics inside
get_disjoint_mut instead of reaching the sufficiency check. -/
theorem transfer_insufficient_iff (m : Balances) (f t : Account) (v fb : Nat)
    (hft : f ≠ t) (hf : lookupBal m f = some fb)
    (ht : (lookupBal m t).isSome = true) :
    ((applyTx m (.transfer f t v)).1 = .err "Insufficient balance." ↔ fb < v) ∧
    (v = fb →
      (applyTx m (.transfer f t v)).1 = .ok () ∧
      lookupBal (applyTx m (.transfer f t v)).2 f = some 0) := by
  obtain ⟨tb, htb⟩ := Option.isSome_iff_exists.mp ht
  constructor
  · constructor
    · intro h
      by_contra hv
      have hv2 : v ≤ fb := Nat.not_lt.mp hv
      rw [applyTx_transfer_ok m f t v fb tb hft hf htb hv2] at h
      simp at h
    · intro hv
      have hgd : getDisjoint m f t = .ok (some fb, some tb) := by
        simp [getDisjoint, hft, hf, htb]
      simp [applyTx, hgd, hv]
  · intro hveq
    subst hveq
    have happ := applyTx_transfer_ok m f t v v tb hft hf htb (Nat.le_refl v)
    have h2 : (applyTx m (.transfer f t v)).2
        = setBal (setBal m t ((tb + v) % U64MOD)) f (v - v) := by rw [happ]
    constructor
    · rw [happ]
    · rw [h2]
      have hin : lookupBal (setBal m t ((tb + v) % U64MOD)) f = some v := by
        rw [lookupBal_setBal_ne m t f _ hft]
        exact hf
      rw [lookupBal_setBal_self _ f v (v - v) hin]
      simp

/-- Claim C7 (witness): the amended iff at a concrete ledger, with a value
above the source balance. -/
theorem transfer_insufficient_iff_witness :
    (("a" : Account) ≠ "b" ∧
      lookupBal [("a", 5), ("b", 0)] "a" = some 5 ∧
      (lookupBal [("a", 5), ("b", 0)] "b").isSome = true) ∧
    (((applyTx [("a", 5), ("b", 0)] (Tx.transfer "a" "b" 7)).1
          = .err "Insufficient balance." ↔ 5 < 7) ∧
      (7 = 5 →
        (applyTx [("a", 5), ("b", 0)] (Tx.transfer "a" "b" 7)).1 = .ok () ∧
        lookupBal (applyTx [("a", 5), ("b", 0)]
          (Tx.transfer "a" "b" 7)).2 "a" = some 0)) :=
  ⟨⟨by decide, by decide, by decide⟩,
    transfer_insufficient_iff [("a", 5), ("b", 0)] "a" "b" 7 5
      (by decide) (by decide) (by decide)⟩

/-- Claim C7 (counterexample): a self-transfer on an existing account with
value above its balance — both sides of the transfer exist, so the claim
as stated demands an Insufficient balance error — panics instead: the iff
fails at from equal to to. -/
theorem transfer_insufficient_iff_cex :
    lookupBal [("a", 5)] "a" = some 5 ∧
    (5 : Nat) < 10 ∧
    (applyTx [("a", 5)] (Tx.transfer "a" "a" 10)).1
      = .panicked "duplicate keys found" ∧
    (applyTx [("a", 5)] (Tx.transfer "a" "a" 10)).1
      ≠ .err "Insufficient balance." := by decide

/-- Claim C8 (amended): failures carry fixed message strings that do not
identify the offending record.  Every parse failure reports the same
context message with no record position; a transfer's account-not-found
error is one constant string that names neither side (only the generate
variant marks its [To] side); and a replay failure propagates the failing
apply's message with no transaction index — from_parts can only ever
surface one of apply's three constant messages. -/
theorem error_messages_fixed :
    (∀ s e, parse_txs s = .error e → e = "Failed to parse transaction.") ∧
    (∀ (m : Balances) (f t : Account) (v : Nat) (e : String),
      (applyTx m (.transfer f t v)).1 = .err e →
        e = "Account not found." ∨ e = "Insufficient balance.") ∧
    (∀ (m : Balances) (t : Account) (v : Nat) (e : String),
      (applyTx m (.generate t v)).1 = .err e → e = "[To] Account not found.") ∧
    (∀ (g : Genesis) (txs : List Tx) (e : String),
      State.from_parts g txs = .err e →
        e = "Account not found." ∨ e = "Insufficient balance." ∨
          e = "[To] Account not found.") := by
  refine ⟨?_, ?_, ?_, ?_⟩
  · intro s e h
    exact parseTxsLines_err_msg (rustLines s) e h
  · intro m f t v e h
    exact (applyTx_transfer_err_inv m f t v e h).2
  · intro m t v e h
    exact (applyTx_generate_err_inv m t v e h).2
  · intro g txs e h
    exact replay_err_msg txs g.balances e (from_parts_err_inv g txs e h)

/-- Claim C8 (witness): a transfer whose destination is missing produces
the fixed transfer error string. -/
theorem error_messages_fixed_witness :
    (applyTx [("a", 3)] (Tx.transfer "a" "b" 1)).1 = .err "Account not found." ∧
    ("Account not found." = "Account not found." ∨
      "Account not found." = "Insufficient balance.") :=
  ⟨rfl, error_messages_fixed.2.1 [("a", 3)] "a" "b" 1 "Account not found." rfl⟩

/-- Claim C8 (counterexample): records that fail for different reasons or
at different places produce byte-identical errors, so the error cannot be
identifying the offending record.  A transfer missing its from side and
one missing its to side raise the same message; a malformed first line and
a malformed second line (after one valid record) raise the same message;
and a replay failing at index 0 and one failing at index 1 raise the same
message, with no index. -/
theorem error_identification_cex :
    (applyTx [("b", 5)] (Tx.transfer "a" "b" 1)).1 = .err "Account not found." ∧
    (applyTx [("a", 5)] (Tx.transfer "a" "b" 1)).1 = .err "Account not found." ∧
    parse_txs "nonsense" = .error "Failed to parse transaction." ∧
    parse_txs "\x7b\"type\":\"generate\",\"to\":\"a\",\"value\":1\x7d\nnonsense"
      = .error "Failed to parse transaction." ∧
    State.from_parts { genesis_time := "t", chain_id := "c", balances := [("a", 5)] }
        [Tx.generate "b" 1] = .err "[To] Account not found." ∧
    State.from_parts { genesis_time := "t", chain_id := "c", balances := [("a", 5)] }
        [Tx.generate "a" 1, Tx.generate "b" 1] = .err "[To] Account not found." :=
  ⟨rfl, rfl, rfl, rfl, rfl, rfl⟩

/-- Claim C9: the key set of the balance mapping is invariant under apply
on every path (success, error, or panic), invariant under replaying any
transaction sequence, and therefore the accounts of any state built by
from_parts are exactly the genesis accounts. -/
theorem accounts_invariant :
    (∀ (m : Balances) (tx : Tx), accounts (applyTx m tx).2 = accounts m) ∧
    (∀ (m : Balances) (txs : List Tx), accounts (replay m txs).2 = accounts m) ∧
    (∀ (g : Genesis) (txs : List Tx) (s : State),
      State.from_parts g txs = .ok s →
        accounts s.balances = accounts g.balances) := by
  refine ⟨accounts_applyTx, fun m txs => accounts_replay txs m, ?_⟩
  intro g txs s h
  simp only [State.from_parts] at h
  cases hr : replay g.balances txs with
  | mk r m =>
    rw [hr] at h
    cases r with
    | ok u =>
      simp at h
      have h2 := accounts_replay txs g.balances
      rw [hr] at h2
      subst h
      exact h2
    | err e => simp at h
    | panicked e => simp at h

/-- Claim C9 (witness): a one-transaction replay keeps exactly the genesis
account set. -/
theorem accounts_invariant_witness :
    State.from_parts
        { genesis_time := "t", chain_id := "c", balances := [("a", 5)] }
        [Tx.generate "a" 1]
      = .ok { balances := [("a", 6)], txs := [Tx.generate "a" 1],
              genesis :=
                { genesis_time := "t", chain_id := "c", balances := [("a", 5)] } } ∧
    accounts ({ balances := [("a", 6)], txs := [Tx.generate "a" 1],
                genesis :=
                  { genesis_time := "t", chain_id := "c",
                    balances := [("a", 5)] } } : State).balances
      = accounts ({ genesis_time := "t", chain_id := "c",
                    balances := [("a", 5)] } : Genesis).balances :=
  ⟨by decide,
    accounts_invariant.2.2
      { genesis_time := "t", chain_id := "c", balances := [("a", 5)] }
      [Tx.generate "a" 1]
      { balances := [("a", 6)], txs := [Tx.generate "a" 1],
        genesis := { genesis_time := "t", chain_id := "c", balances := [("a", 5)] } }
      (by decide)⟩

/-- Claim C10: parse_transactions on entirely empty input returns the
empty transaction sequence, while any input among whose lines (as split by
str::lines) there is an empty or blank one fails, because every line must
independently deserialize as a transaction and a blank line cannot. -/
theorem parse_txs_empty_and_blank :
    parse_txs "" = .ok [] ∧
    (∀ (s l : String), l ∈ rustLines s → l.data.all isJsonWs = true →
      parse_txs s = .error "Failed to parse transaction.") := by
  constructor
  · rfl
  · intro s l hmem hblank
    exact parseTxsLines_err_of_mem (rustLines s) l hmem _ (parseTxStr_blank l hblank)

/-- Claim C10 (witness): the input consisting of a single newline has one
line, the empty one, and fails to parse. -/
theorem parse_txs_blank_witness :
    ("" ∈ rustLines "\n") ∧ ("".data.all isJsonWs = true) ∧
    parse_txs "\n" = .error "Failed to parse transaction." :=
  ⟨by decide, by decide,
    parse_txs_empty_and_blank.2 "\n" "" (by decide) (by decide)⟩
